import Mathlib

/-!
Verification of the signal-detection and outcome-evaluation logic of the
pyquotex Telegram OTC bot, shallowly embedded from the two source variants
`telegram_otc_bot.py` (momentum + martingale variant) and
`telegram_otc_bot_fixed.py` (reversal-only variant).

Python floats are modelled by exact rationals (`ℚ`); all decision logic in
the source is order comparison and exact arithmetic on small decimals, so
the embedding preserves every branch. Candle timestamps are integers, as in
the source. Fallible candle fetches (`get_candles_for_pair` returning `None`)
are modelled by `Option (List CandleData)`, and Python truthiness of a list
(`if not candles`) is modelled by an explicit emptiness test.
-/

/-- `CandleData` dataclass, shared verbatim by both source files:
open/high/low/close prices and an integer timestamp. -/
structure CandleData where
  «open» : ℚ
  high : ℚ
  low : ℚ
  close : ℚ
  timestamp : ℤ
deriving DecidableEq, Repr

/-- A zero candle, standing for an unused fallback value in partial list
accesses that the source guards by construction. -/
def defaultCandle : CandleData :=
  { «open» := 0, high := 0, low := 0, close := 0, timestamp := 0 }

/-- The per-candle direction computed by the loop body shared by
`score_pair` (telegram_otc_bot.py lines 182-188) and `analyze_reversal`
(telegram_otc_bot_fixed.py lines 118-124): `close > open` is CALL,
`close < open` is PUT, a tie is NEUTRAL. -/
def candle_direction (c : CandleData) : String :=
  if c.close > c.«open» then "CALL"
  else if c.close < c.«open» then "PUT"
  else "NEUTRAL"

/-- Python `len(set(directions)) == 1 and directions[0] != "NEUTRAL"`:
the deduplicated direction list is a singleton (all directions equal,
list non-empty) and the first direction is not NEUTRAL. -/
def same_direction (directions : List String) : Bool :=
  (directions.dedup.length == 1) && (directions.headD "" != "NEUTRAL")

/-- `candle_changes = [c.close - c.open for c in candles]`
(telegram_otc_bot.py line 198). -/
def candle_changes (candles : List CandleData) : List ℚ :=
  candles.map (fun c => c.close - c.«open»)

/-- `momentum = (0.6 * candle_changes[-1]) + (0.4 * candle_changes[-2])`
(telegram_otc_bot.py line 199); Python negative indices are the last and
second-to-last entries. -/
def momentum (candles : List CandleData) : ℚ :=
  0.6 * (candle_changes candles).getLastD 0 +
    0.4 * (candle_changes candles).getD ((candle_changes candles).length - 2) 0

/-- `volatility = sum(c.high - c.low for c in candles) / len(candles)`
(telegram_otc_bot.py lines 200 and 218). -/
def volatility (candles : List CandleData) : ℚ :=
  (candles.map (fun c => c.high - c.low)).sum / (candles.length : ℚ)

/-- `TelegramOTCBot.score_pair` (telegram_otc_bot.py lines 172-204):
windows shorter than 4 bars yield `(0.0, "NONE", 0.0)`; four identical
non-NEUTRAL directions yield the reversal signal with sentinel score 100
and the opposite direction; otherwise the momentum fallback scores the
window. The returned price is `candles[-1].close`. -/
def score_pair (candles : List CandleData) : ℚ × String × ℚ :=
  if candles.length < 4 then (0, "NONE", 0)
  else
    let directions := candles.map candle_direction
    if same_direction directions then
      let direction := if directions.headD "" = "CALL" then "PUT" else "CALL"
      (100, direction, (candles.getLastD defaultCandle).close)
    else
      let m := momentum candles
      (|m| * volatility candles, if m > 0 then "CALL" else "PUT",
        (candles.getLastD defaultCandle).close)

/-- `TelegramOTCBot.analyze_single_pair` (telegram_otc_bot.py lines
206-222): `None` (or an empty fetch, by Python truthiness) yields no
result; otherwise `score_pair` runs and the result is dropped when the
window's mean high-low range is below the minimum-volatility threshold.
Returns `(pair, direction, score, price)`. -/
def analyze_single_pair (pair : String) (candles : Option (List CandleData))
    (min_volatility_threshold : ℚ) : Option (String × String × ℚ × ℚ) :=
  match candles with
  | none => none
  | some cs =>
    if cs.isEmpty then none
    else
      let r := score_pair cs
      if volatility cs < min_volatility_threshold then none
      else some (pair, r.2.1, r.1, r.2.2)

/-- `TelegramOTCBot.analyze_reversal` (telegram_otc_bot_fixed.py lines
112-131): four identical non-NEUTRAL directions yield the opposite
direction with the last close; anything else yields `None`. -/
def analyze_reversal (candles : List CandleData) : Option (String × ℚ) :=
  if candles.length < 4 then none
  else
    let directions := candles.map candle_direction
    if same_direction directions then
      some (if directions.headD "" = "CALL" then "PUT" else "CALL",
        (candles.getLastD defaultCandle).close)
    else none

/-- The candle-matching loop of `TelegramOTCBot.check_trade_result`
(telegram_otc_bot.py lines 307-315): the first candle whose timestamp is
within 60 seconds of the entry timestamp; if no candle matches, the last
fetched candle `candles[-1]`. -/
def find_trade_candle (candles : List CandleData) (entry_timestamp : ℤ) : CandleData :=
  match candles.find? (fun c => decide ((c.timestamp - entry_timestamp).natAbs ≤ 60)) with
  | some c => c
  | none => candles.getLastD defaultCandle

/-- `TelegramOTCBot.check_trade_result` (telegram_otc_bot.py lines
297-328): a failed or empty fetch is scored `"LOSS"`; otherwise the
matched candle wins for CALL iff `close > open` and for any other
direction (the source's `else: # PUT`) iff `close < open`. -/
def check_trade_result (direction : String) (entry_timestamp : ℤ)
    (candles : Option (List CandleData)) : String :=
  match candles with
  | none => "LOSS"
  | some cs =>
    if cs.isEmpty then "LOSS"
    else
      let trade_candle := find_trade_candle cs entry_timestamp
      let is_win :=
        if direction = "CALL" then decide (trade_candle.close > trade_candle.«open»)
        else decide (trade_candle.close < trade_candle.«open»)
      if is_win then "WIN" else "LOSS"

/-- The mutable bot fields read and written by
`TelegramOTCBot.evaluate_signal_result`: the cumulative tally, the stake
configuration and the in-sequence flag (telegram_otc_bot.py lines 94-101). -/
structure BotState where
  win_count : ℕ
  loss_count : ℕ
  base_stake : ℚ
  current_stake : ℚ
  martingale_factor : ℚ
  in_martingale_sequence : Bool
deriving DecidableEq, Repr

/-- The two evaluation phases the source logs on entry
(`=== PHASE 1: Initial Trade ===`, `=== PHASE 2: Martingale Trade ===`). -/
inductive Phase where
  | INITIAL
  | MARTINGALE
deriving DecidableEq, Repr

/-- Result of one run of `evaluate_signal_result`: the updated bot state,
the final result string, and the phase-entry trace — one entry per phase
the source enters, paired with the stake it logs at that entry
(telegram_otc_bot.py lines 239 and 263). -/
structure EvalOutcome where
  state : BotState
  result : String
  phases : List (Phase × ℚ)
deriving DecidableEq, Repr

/-- `TelegramOTCBot.evaluate_signal_result` (telegram_otc_bot.py lines
224-295), with the two candle fetches of its `check_trade_result` calls
passed in as `fetch1`/`fetch2` (the second is consulted only on an
initial-phase loss). The stake is reset to the base stake on entry, the
martingale stake is recomputed as `base_stake * martingale_factor`, wins
in either phase bump `win_count`, a double loss bumps `loss_count`, and
the stake is reset to the base stake before returning. -/
def evaluate_signal_result (s0 : BotState) (direction : String)
    (initial_timestamp mtg_timestamp : ℤ)
    (fetch1 fetch2 : Option (List CandleData)) : EvalOutcome :=
  let s1 := { s0 with current_stake := s0.base_stake, in_martingale_sequence := true }
  let initial_result := check_trade_result direction initial_timestamp fetch1
  if initial_result = "WIN" then
    let s4 := { s1 with
      win_count := s1.win_count + 1,
      in_martingale_sequence := false,
      current_stake := s1.base_stake }
    { state := s4, result := "WIN", phases := [(Phase.INITIAL, s1.current_stake)] }
  else
    let s2 := { s1 with current_stake := s1.base_stake * s1.martingale_factor }
    let mtg_result := check_trade_result direction mtg_timestamp fetch2
    let s3 :=
      if mtg_result = "WIN" then { s2 with win_count := s2.win_count + 1 }
      else { s2 with loss_count := s2.loss_count + 1 }
    let s4 := { s3 with in_martingale_sequence := false, current_stake := s3.base_stake }
    { state := s4, result := if mtg_result = "WIN" then "MTG WIN" else "LOSS",
      phases := [(Phase.INITIAL, s1.current_stake), (Phase.MARTINGALE, s2.current_stake)] }

/-- The candle win test `(direction == "CALL" and candle.close > candle.open)
or (direction == "PUT" and candle.close < candle.open)`, repeated verbatim at
telegram_otc_bot_fixed.py lines 176-177 and 189-190. -/
def check_candle_win (direction : String) (candle : CandleData) : Prop :=
  (direction = "CALL" ∧ candle.close > candle.«open») ∨
    (direction = "PUT" ∧ candle.close < candle.«open»)

instance (direction : String) (candle : CandleData) :
    Decidable (check_candle_win direction candle) := by
  unfold check_candle_win
  infer_instance

/-- The martingale tail of `TelegramOTCBot.evaluate_result`
(telegram_otc_bot_fixed.py lines 180-193): a failed or empty second fetch
returns `"LOSS"`; a second-candle win returns `"MG WIN"`; otherwise
`"LOSS"`. -/
def evaluate_result_mg (direction : String)
    (fetch2 : Option (List CandleData)) : String :=
  match fetch2 with
  | none => "LOSS"
  | some cs2 =>
    if cs2.isEmpty then "LOSS"
    else if check_candle_win direction (cs2.headD defaultCandle) then "MG WIN"
    else "LOSS"

/-- `TelegramOTCBot.evaluate_result` (telegram_otc_bot_fixed.py lines
166-193), with the two single-candle fetches passed in as
`fetch1`/`fetch2`. A failed or empty first fetch returns `"ERROR"`; a
first-candle win returns `"WIN"`; otherwise the martingale tail decides.
The examined candle is `candles[0]`. -/
def evaluate_result (direction : String)
    (fetch1 fetch2 : Option (List CandleData)) : String :=
  match fetch1 with
  | none => "ERROR"
  | some cs1 =>
    if cs1.isEmpty then "ERROR"
    else if check_candle_win direction (cs1.headD defaultCandle) then "WIN"
    else evaluate_result_mg direction fetch2

/-! ## Helper lemmas -/

lemma dedup_eq_singleton_of_all_eq {l : List String} {a : String}
    (hne : l ≠ []) (h : ∀ x ∈ l, x = a) : l.dedup = [a] := by
  induction l with
  | nil => exact absurd rfl hne
  | cons x xs ih =>
    have hx : x = a := h x (List.mem_cons_self x xs)
    subst hx
    by_cases hxs : xs = []
    · subst hxs; simp
    · have hd : xs.dedup = [x] := ih hxs (fun y hy => h y (List.mem_cons_of_mem x hy))
      rw [List.dedup_cons_of_mem, hd]
      rw [← List.mem_dedup, hd]
      exact List.mem_singleton.mpr rfl

lemma all_eq_of_dedup_length_eq_one {l : List String}
    (h : l.dedup.length = 1) : ∀ x ∈ l, ∀ y ∈ l, x = y := by
  obtain ⟨a, ha⟩ := List.length_eq_one.mp h
  intro x hx y hy
  have hxa : x = a := by
    have hm := List.mem_dedup.mpr hx
    rw [ha] at hm
    exact List.mem_singleton.mp hm
  have hya : y = a := by
    have hm := List.mem_dedup.mpr hy
    rw [ha] at hm
    exact List.mem_singleton.mp hm
  rw [hxa, hya]

lemma headD_eq_of_all_eq {l : List String} {a : String}
    (hne : l ≠ []) (h : ∀ x ∈ l, x = a) : l.headD "" = a := by
  cases l with
  | nil => exact absurd rfl hne
  | cons x xs => exact h x (List.mem_cons_self x xs)

lemma headD_eq_of_mem_all_eq {l : List String} {x : String}
    (hx : x ∈ l) (h : ∀ a ∈ l, ∀ b ∈ l, a = b) : l.headD "" = x := by
  cases l with
  | nil => simp at hx
  | cons y ys => exact h y (List.mem_cons_self y ys) x hx

lemma same_direction_eq_true_of_all (cs : List CandleData) {a : String}
    (hne : cs ≠ []) (ha : a ≠ "NEUTRAL")
    (h : ∀ c ∈ cs, candle_direction c = a) :
    same_direction (cs.map candle_direction) = true ∧
    (cs.map candle_direction).headD "" = a := by
  have hmapne : cs.map candle_direction ≠ [] := by simpa using hne
  have hall : ∀ x ∈ cs.map candle_direction, x = a := by
    intro x hx
    obtain ⟨c, hc, rfl⟩ := List.mem_map.mp hx
    exact h c hc
  have hded := dedup_eq_singleton_of_all_eq hmapne hall
  have hhead := headD_eq_of_all_eq hmapne hall
  refine ⟨?_, hhead⟩
  unfold same_direction
  rw [hded, hhead]
  simp [ha]

lemma same_direction_eq_false (cs : List CandleData)
    (h : (∃ c ∈ cs, candle_direction c = "NEUTRAL") ∨
      (∃ c ∈ cs, ∃ d ∈ cs, candle_direction c ≠ candle_direction d)) :
    same_direction (cs.map candle_direction) = false := by
  by_cases hlen : (cs.map candle_direction).dedup.length = 1
  · have hall := all_eq_of_dedup_length_eq_one hlen
    rcases h with ⟨c, hc, hcn⟩ | ⟨c, hc, d, hd, hcd⟩
    · have hmem : candle_direction c ∈ cs.map candle_direction :=
        List.mem_map.mpr ⟨c, hc, rfl⟩
      have hhead := headD_eq_of_mem_all_eq hmem hall
      rw [hcn] at hhead
      unfold same_direction
      rw [hhead]
      simp
    · exact absurd
        (hall (candle_direction c) (List.mem_map.mpr ⟨c, hc, rfl⟩)
          (candle_direction d) (List.mem_map.mpr ⟨d, hd, rfl⟩)) hcd
  · unfold same_direction
    simp [hlen]

lemma find_trade_candle_singleton (c : CandleData) (t : ℤ) :
    find_trade_candle [c] t = c := by
  by_cases hp : (c.timestamp - t).natAbs ≤ 60 <;>
    simp [find_trade_candle, List.find?, hp]

/-! ## Claim theorems -/

/-- C1: a 4-bar window whose bars all share a non-NEUTRAL direction makes
both variants emit the opposite direction with the last bar's close as the
reference price: all-CALL (every `close > open`) yields PUT and all-PUT
yields CALL, in `score_pair` (with the sentinel score 100) and in
`analyze_reversal` alike. -/
theorem reversal_signal_all_same (cs : List CandleData) (h4 : cs.length = 4) :
    ((∀ c ∈ cs, c.«open» < c.close) →
      score_pair cs = (100, "PUT", (cs.getLastD defaultCandle).close) ∧
      analyze_reversal cs = some ("PUT", (cs.getLastD defaultCandle).close)) ∧
    ((∀ c ∈ cs, c.close < c.«open») →
      score_pair cs = (100, "CALL", (cs.getLastD defaultCandle).close) ∧
      analyze_reversal cs = some ("CALL", (cs.getLastD defaultCandle).close)) := by
  have hne : cs ≠ [] := by
    intro h; rw [h] at h4; simp at h4
  have hnlt : ¬ cs.length < 4 := by omega
  constructor
  · intro h
    have hdir : ∀ c ∈ cs, candle_direction c = "CALL" := by
      intro c hc
      simp [candle_direction, h c hc]
    obtain ⟨hsd, hhead⟩ := same_direction_eq_true_of_all cs hne (by decide) hdir
    rw [score_pair, analyze_reversal]
    rw [if_neg hnlt, if_neg hnlt]
    simp only [hsd, if_true, hhead]
    simp
  · intro h
    have hdir : ∀ c ∈ cs, candle_direction c = "PUT" := by
      intro c hc
      simp [candle_direction, h c hc, (h c hc).asymm]
    obtain ⟨hsd, hhead⟩ := same_direction_eq_true_of_all cs hne (by decide) hdir
    rw [score_pair, analyze_reversal]
    rw [if_neg hnlt, if_neg hnlt]
    simp only [hsd, if_true, hhead]
    simp

/-- C1 witness: a concrete all-rising 4-bar window yields the PUT reversal
signal at the last close in both variants. -/
theorem reversal_signal_all_same_witness :
    score_pair [⟨1, 3, 0, 2, 0⟩, ⟨2, 4, 1, 3, 60⟩, ⟨3, 5, 2, 4, 120⟩, ⟨4, 6, 3, 5, 180⟩] =
      (100, "PUT", 5) ∧
    analyze_reversal [⟨1, 3, 0, 2, 0⟩, ⟨2, 4, 1, 3, 60⟩, ⟨3, 5, 2, 4, 120⟩, ⟨4, 6, 3, 5, 180⟩] =
      some ("PUT", 5) :=
  (reversal_signal_all_same
    [⟨1, 3, 0, 2, 0⟩, ⟨2, 4, 1, 3, 60⟩, ⟨3, 5, 2, 4, 120⟩, ⟨4, 6, 3, 5, 180⟩]
    (by decide)).1 (by decide)

/-- C6: windows shorter than 4 bars produce no reversal signal in either
variant (`score_pair` returns the `(0, "NONE", 0)` sentinel and
`analyze_reversal` returns `none`), and windows of at least 4 bars with a
NEUTRAL bar or with two bars of different directions fall through to the
momentum branch in `score_pair` and give `none` in `analyze_reversal`;
both functions are total, so no exception can arise. -/
theorem no_reversal_signal (cs : List CandleData) :
    (cs.length < 4 → score_pair cs = (0, "NONE", 0) ∧ analyze_reversal cs = none) ∧
    (4 ≤ cs.length →
      ((∃ c ∈ cs, candle_direction c = "NEUTRAL") ∨
        (∃ c ∈ cs, ∃ d ∈ cs, candle_direction c ≠ candle_direction d)) →
      analyze_reversal cs = none ∧
      score_pair cs = (|momentum cs| * volatility cs,
        if momentum cs > 0 then "CALL" else "PUT",
        (cs.getLastD defaultCandle).close)) := by
  constructor
  · intro h
    rw [score_pair, analyze_reversal, if_pos h, if_pos h]
    constructor <;> trivial
  · intro hlen h
    have hnlt : ¬ cs.length < 4 := by omega
    have hsd := same_direction_eq_false cs h
    rw [score_pair, analyze_reversal, if_neg hnlt, if_neg hnlt]
    simp only [hsd, Bool.false_eq_true, if_false]
    constructor <;> trivial

/-- C6 witness: a 1-bar window yields the no-signal sentinels, and a 4-bar
window with mixed directions yields no reversal signal. -/
theorem no_reversal_signal_witness :
    (score_pair [⟨1, 3, 0, 2, 0⟩] = (0, "NONE", 0) ∧
      analyze_reversal [⟨1, 3, 0, 2, 0⟩] = none) ∧
    (analyze_reversal [⟨1, 3, 0, 2, 0⟩, ⟨2, 4, 1, 3, 60⟩, ⟨3, 5, 2, 4, 120⟩, ⟨5, 7, 3, 4, 180⟩] =
      none) :=
  ⟨(no_reversal_signal [⟨1, 3, 0, 2, 0⟩]).1 (by decide),
    ((no_reversal_signal
      [⟨1, 3, 0, 2, 0⟩, ⟨2, 4, 1, 3, 60⟩, ⟨3, 5, 2, 4, 120⟩, ⟨5, 7, 3, 4, 180⟩]).2
      (by decide)
      (Or.inr ⟨⟨1, 3, 0, 2, 0⟩, by decide, ⟨5, 7, 3, 4, 180⟩, by decide, by decide⟩)).1⟩

/-- C7: on a 4-bar window without the reversal pattern, `score_pair` takes
the momentum branch: the score is `|momentum| * volatility`, the direction
is CALL exactly when the weighted momentum is positive and PUT when it is
negative, the momentum and volatility are the spec's weighted-delta and
mean-range formulas, the score is non-negative whenever every bar has
`low ≤ high`, and the score is zero when the momentum is zero. -/
theorem momentum_scorer (cs : List CandleData) (h4 : cs.length = 4)
    (hnr : same_direction (cs.map candle_direction) = false) :
    score_pair cs = (|momentum cs| * volatility cs,
      if momentum cs > 0 then "CALL" else "PUT",
      (cs.getLastD defaultCandle).close) ∧
    (∀ c0 c1 c2 c3, cs = [c0, c1, c2, c3] →
      momentum cs = 0.6 * (c3.close - c3.«open») + 0.4 * (c2.close - c2.«open») ∧
      volatility cs = ((c0.high - c0.low) + (c1.high - c1.low) +
        (c2.high - c2.low) + (c3.high - c3.low)) / 4) ∧
    (0 < momentum cs → (score_pair cs).2.1 = "CALL") ∧
    (momentum cs < 0 → (score_pair cs).2.1 = "PUT") ∧
    ((∀ c ∈ cs, c.low ≤ c.high) → 0 ≤ (score_pair cs).1) ∧
    (momentum cs = 0 → (score_pair cs).1 = 0) := by
  have hnlt : ¬ cs.length < 4 := by omega
  have hmain : score_pair cs = (|momentum cs| * volatility cs,
      if momentum cs > 0 then "CALL" else "PUT",
      (cs.getLastD defaultCandle).close) := by
    rw [score_pair, if_neg hnlt]
    simp only [hnr, Bool.false_eq_true, if_false]
  refine ⟨hmain, ?_, ?_, ?_, ?_, ?_⟩
  · intro c0 c1 c2 c3 hcs
    subst hcs
    constructor
    · simp [momentum, candle_changes]
    · simp [volatility]
      ring
  · intro hpos
    rw [hmain]
    simp [hpos]
  · intro hneg
    rw [hmain]
    simp [not_lt.mpr hneg.le]
  · intro hranges
    rw [hmain]
    have hvol : 0 ≤ volatility cs := by
      unfold volatility
      apply div_nonneg
      · apply List.sum_nonneg
        intro x hx
        obtain ⟨c, hc, rfl⟩ := List.mem_map.mp hx
        exact sub_nonneg.mpr (hranges c hc)
      · exact Nat.cast_nonneg _
    exact mul_nonneg (abs_nonneg _) hvol
  · intro hzero
    rw [hmain]
    simp [hzero]

/-- C7 witness: a concrete mixed-direction 4-bar window gets direction CALL
from its positive momentum and a non-negative score. -/
theorem momentum_scorer_witness :
    (score_pair [⟨1, 3, 0, 2, 0⟩, ⟨3, 4, 1, 2, 60⟩, ⟨2, 5, 1, 4, 120⟩, ⟨4, 6, 2, 5, 180⟩]).2.1 =
      "CALL" ∧
    0 ≤ (score_pair [⟨1, 3, 0, 2, 0⟩, ⟨3, 4, 1, 2, 60⟩, ⟨2, 5, 1, 4, 120⟩, ⟨4, 6, 2, 5, 180⟩]).1 := by
  have h := momentum_scorer
    [⟨1, 3, 0, 2, 0⟩, ⟨3, 4, 1, 2, 60⟩, ⟨2, 5, 1, 4, 120⟩, ⟨4, 6, 2, 5, 180⟩]
    (by decide) (by decide)
  refine ⟨h.2.2.1 ?_, h.2.2.2.2.1 ?_⟩
  · norm_num [momentum, candle_changes]
  · decide

lemma evaluate_result_mg_ne_win (direction : String) (f2 : Option (List CandleData)) :
    evaluate_result_mg direction f2 ≠ "WIN" := by
  unfold evaluate_result_mg
  rcases f2 with _ | cs2
  · simp
  · by_cases h2 : cs2.isEmpty
    · simp [h2]
    · simp only [h2, Bool.false_eq_true, if_false]
      split <;> simp

/-- C3: the outcome evaluators classify a CALL as a win exactly when the
matched bar's close is strictly above its open and a PUT exactly when it is
strictly below, and a tie (`close == open`) loses for both directions: in
`check_trade_result` the tie is an immediate LOSS, and in `evaluate_result`
a tied bar is never a win in either phase, so a doubly tied evaluation ends
in LOSS. -/
theorem win_classification (c : CandleData) (t : ℤ) (f2 : Option (List CandleData)) :
    (check_trade_result "CALL" t (some [c]) = "WIN" ↔ c.«open» < c.close) ∧
    (check_trade_result "PUT" t (some [c]) = "WIN" ↔ c.close < c.«open») ∧
    (check_trade_result "CALL" t (some [c]) = "LOSS" ↔ ¬ c.«open» < c.close) ∧
    (check_trade_result "PUT" t (some [c]) = "LOSS" ↔ ¬ c.close < c.«open») ∧
    (evaluate_result "CALL" (some [c]) f2 = "WIN" ↔ c.«open» < c.close) ∧
    (evaluate_result "PUT" (some [c]) f2 = "WIN" ↔ c.close < c.«open») ∧
    (c.close = c.«open» →
      check_trade_result "CALL" t (some [c]) = "LOSS" ∧
      check_trade_result "PUT" t (some [c]) = "LOSS" ∧
      evaluate_result "CALL" (some [c]) (some [c]) = "LOSS" ∧
      evaluate_result "PUT" (some [c]) (some [c]) = "LOSS") := by
  have hftc := find_trade_candle_singleton c t
  refine ⟨?_, ?_, ?_, ?_, ?_, ?_, ?_⟩
  · by_cases h : c.«open» < c.close <;> simp [check_trade_result, hftc, h]
  · by_cases h : c.close < c.«open» <;> simp [check_trade_result, hftc, h]
  · by_cases h : c.«open» < c.close <;> simp [check_trade_result, hftc, h]
  · by_cases h : c.close < c.«open» <;> simp [check_trade_result, hftc, h]
  · by_cases h : c.«open» < c.close
    · simp [evaluate_result, check_candle_win, h]
    · simp only [evaluate_result, List.isEmpty_cons, Bool.false_eq_true, if_false]
      rw [if_neg]
      · simp [h, evaluate_result_mg_ne_win]
      · simp [check_candle_win, h]
  · by_cases h : c.close < c.«open»
    · simp [evaluate_result, check_candle_win, h]
    · simp only [evaluate_result, List.isEmpty_cons, Bool.false_eq_true, if_false]
      rw [if_neg]
      · simp [h, evaluate_result_mg_ne_win]
      · simp [check_candle_win, h]
  · intro h
    have hnlt1 : ¬ c.«open» < c.close := by rw [h]; exact lt_irrefl _
    have hnlt2 : ¬ c.close < c.«open» := by rw [h]; exact lt_irrefl _
    refine ⟨?_, ?_, ?_, ?_⟩ <;>
      simp [check_trade_result, evaluate_result, evaluate_result_mg, check_candle_win,
        hftc, hnlt1, hnlt2]

/-- C3 witness: concrete rising, tied and falling bars classified by both
variants. -/
theorem win_classification_witness :
    check_trade_result "CALL" 0 (some [⟨1, 3, 0, 2, 30⟩]) = "WIN" ∧
    check_trade_result "PUT" 0 (some [⟨1, 3, 0, 2, 30⟩]) = "LOSS" ∧
    check_trade_result "CALL" 0 (some [⟨2, 3, 0, 2, 30⟩]) = "LOSS" ∧
    check_trade_result "PUT" 0 (some [⟨2, 3, 0, 2, 30⟩]) = "LOSS" ∧
    evaluate_result "PUT" (some [⟨3, 4, 1, 2, 30⟩]) none = "WIN" :=
  ⟨(win_classification ⟨1, 3, 0, 2, 30⟩ 0 none).1.mpr (by decide),
    (win_classification ⟨1, 3, 0, 2, 30⟩ 0 none).2.2.2.1.mpr (by decide),
    ((win_classification ⟨2, 3, 0, 2, 30⟩ 0 none).2.2.2.2.2.2 (by decide)).1,
    ((win_classification ⟨2, 3, 0, 2, 30⟩ 0 none).2.2.2.2.2.2 (by decide)).2.1,
    (win_classification ⟨3, 4, 1, 2, 30⟩ 0 none).2.2.2.2.2.1.mpr (by decide)⟩

/-- C9: `check_trade_result`'s candle selection (`find_trade_candle`) picks
a fetched bar whose timestamp is within 60 seconds of the entry timestamp
whenever one exists, and otherwise falls back to the most recent fetched
bar, i.e. the last bar of the sequence. -/
theorem trade_candle_matching (cs : List CandleData) (t : ℤ) (hne : cs ≠ []) :
    ((∃ c ∈ cs, (c.timestamp - t).natAbs ≤ 60) →
      find_trade_candle cs t ∈ cs ∧
      ((find_trade_candle cs t).timestamp - t).natAbs ≤ 60) ∧
    ((∀ c ∈ cs, ¬ (c.timestamp - t).natAbs ≤ 60) →
      find_trade_candle cs t = cs.getLast hne) := by
  constructor
  · intro hex
    unfold find_trade_candle
    cases hf : cs.find? (fun c => decide ((c.timestamp - t).natAbs ≤ 60)) with
    | some c =>
      refine ⟨List.mem_of_find?_eq_some hf, ?_⟩
      have := List.find?_some hf
      simpa using this
    | none =>
      exfalso
      rw [List.find?_eq_none] at hf
      obtain ⟨c, hc, hcc⟩ := hex
      exact absurd (by simpa using hcc) (by simpa using hf c hc)
  · intro hall
    unfold find_trade_candle
    have hf : cs.find? (fun c => decide ((c.timestamp - t).natAbs ≤ 60)) = none := by
      rw [List.find?_eq_none]
      intro c hc
      simpa using hall c hc
    rw [hf, List.getLastD_eq_getLast?, List.getLast?_eq_getLast cs hne]
    rfl

/-- C9 witness: with two fetched bars, the selection matches the bar within
60 seconds of the entry time, and with no bar in range it returns the last
bar. -/
theorem trade_candle_matching_witness :
    (find_trade_candle [⟨1, 2, 0, 1, 100⟩, ⟨1, 2, 0, 1, 200⟩] 210 ∈
        ([⟨1, 2, 0, 1, 100⟩, ⟨1, 2, 0, 1, 200⟩] : List CandleData) ∧
      ((find_trade_candle [⟨1, 2, 0, 1, 100⟩, ⟨1, 2, 0, 1, 200⟩] 210).timestamp - 210).natAbs ≤ 60) ∧
    find_trade_candle [⟨1, 2, 0, 1, 100⟩, ⟨1, 2, 0, 1, 200⟩] 1000 = ⟨1, 2, 0, 1, 200⟩ := by
  constructor
  · exact (trade_candle_matching [⟨1, 2, 0, 1, 100⟩, ⟨1, 2, 0, 1, 200⟩] 210 (by decide)).1
      ⟨⟨1, 2, 0, 1, 200⟩, by decide, by decide⟩
  · have h := (trade_candle_matching [⟨1, 2, 0, 1, 100⟩, ⟨1, 2, 0, 1, 200⟩] 1000 (by decide)).2
      (by decide)
    exact h

lemma evaluate_result_mg_cases (direction : String) (f2 : Option (List CandleData)) :
    evaluate_result_mg direction f2 = "MG WIN" ∨ evaluate_result_mg direction f2 = "LOSS" := by
  unfold evaluate_result_mg
  rcases f2 with _ | cs2
  · simp
  · by_cases h2 : cs2.isEmpty
    · simp [h2]
    · simp only [h2, Bool.false_eq_true, if_false]
      split
      · exact Or.inl rfl
      · exact Or.inr rfl

/-- C2 counterexample: the fixed variant's `evaluate_result` terminates
with `"ERROR"` when the initial-phase fetch returns no bars, which is none
of the claimed terminal outcomes (initial win, martingale win, loss). -/
theorem evaluation_outcomes_cex :
    evaluate_result "CALL" none none = "ERROR" ∧
    ¬ (evaluate_result "CALL" none none = "WIN" ∨
      evaluate_result "CALL" none none = "MG WIN" ∨
      evaluate_result "CALL" none none = "LOSS") := by
  constructor
  · rfl
  · intro h
    rcases h with h | h | h <;> simp [evaluate_result] at h

/-- C2 (amended): in the martingale variant every evaluation terminates in
WIN, MTG WIN or LOSS, an initial win terminates without entering the
martingale phase, a losing initial phase enters exactly one martingale
phase, and the martingale phase is never entered more than once; in the
fixed variant the evaluation terminates in WIN, MG WIN, LOSS or — exactly
when the first fetch yields no bars — ERROR. -/
theorem evaluation_state_machine (s : BotState) (direction : String) (t1 t2 : ℤ)
    (f1 f2 : Option (List CandleData)) :
    ((evaluate_signal_result s direction t1 t2 f1 f2).result = "WIN" ∨
      (evaluate_signal_result s direction t1 t2 f1 f2).result = "MTG WIN" ∨
      (evaluate_signal_result s direction t1 t2 f1 f2).result = "LOSS") ∧
    (check_trade_result direction t1 f1 = "WIN" →
      (evaluate_signal_result s direction t1 t2 f1 f2).result = "WIN" ∧
      (evaluate_signal_result s direction t1 t2 f1 f2).phases.map Prod.fst = [Phase.INITIAL]) ∧
    (check_trade_result direction t1 f1 ≠ "WIN" →
      ((evaluate_signal_result s direction t1 t2 f1 f2).result = "MTG WIN" ∨
        (evaluate_signal_result s direction t1 t2 f1 f2).result = "LOSS") ∧
      (evaluate_signal_result s direction t1 t2 f1 f2).phases.map Prod.fst =
        [Phase.INITIAL, Phase.MARTINGALE]) ∧
    ((evaluate_signal_result s direction t1 t2 f1 f2).phases.map Prod.fst).count
      Phase.MARTINGALE ≤ 1 ∧
    (evaluate_result direction f1 f2 = "WIN" ∨ evaluate_result direction f1 f2 = "MG WIN" ∨
      evaluate_result direction f1 f2 = "LOSS" ∨ evaluate_result direction f1 f2 = "ERROR") ∧
    (evaluate_result direction f1 f2 = "ERROR" ↔ f1 = none ∨ f1 = some []) := by
  have hvar2 : (evaluate_result direction f1 f2 = "WIN" ∨
      evaluate_result direction f1 f2 = "MG WIN" ∨
      evaluate_result direction f1 f2 = "LOSS" ∨
      evaluate_result direction f1 f2 = "ERROR") ∧
      (evaluate_result direction f1 f2 = "ERROR" ↔ f1 = none ∨ f1 = some []) := by
    unfold evaluate_result
    rcases f1 with _ | cs1
    · simp
    · by_cases h1 : cs1.isEmpty
      · simp [h1]
        exact List.isEmpty_iff.mp h1
      · simp only [h1, Bool.false_eq_true, if_false]
        have hcs1 : cs1 ≠ [] := by
          intro hh
          rw [hh] at h1
          simp at h1
        by_cases hw : check_candle_win direction (cs1.headD defaultCandle)
        · rw [if_pos hw]
          simp [hcs1]
        · rw [if_neg hw]
          rcases evaluate_result_mg_cases direction f2 with hmg | hmg <;>
            simp [hmg, hcs1]
  by_cases h1 : check_trade_result direction t1 f1 = "WIN"
  · refine ⟨?_, ?_, ?_, ?_, hvar2.1, hvar2.2⟩ <;>
      simp [evaluate_signal_result, h1]
  · by_cases h2 : check_trade_result direction t2 f2 = "WIN" <;>
      refine ⟨?_, ?_, ?_, ?_, hvar2.1, hvar2.2⟩ <;>
      simp [evaluate_signal_result, h1, h2]

/-- C2 witness: a winning initial candle terminates the martingale variant
with result WIN and the single INITIAL phase. -/
theorem evaluation_state_machine_witness :
    (evaluate_signal_result ⟨0, 0, 1, 1, 2, false⟩ "CALL" 0 60
      (some [⟨1, 3, 0, 2, 30⟩]) none).result = "WIN" ∧
    (evaluate_signal_result ⟨0, 0, 1, 1, 2, false⟩ "CALL" 0 60
      (some [⟨1, 3, 0, 2, 30⟩]) none).phases.map Prod.fst = [Phase.INITIAL] :=
  (evaluation_state_machine ⟨0, 0, 1, 1, 2, false⟩ "CALL" 0 60
    (some [⟨1, 3, 0, 2, 30⟩]) none).2.1 (by decide)

/-- C4: every completed `evaluate_signal_result` run increases
`win_count + loss_count` by exactly 1: `win_count` goes up by one on an
initial WIN or a MTG WIN (no separate martingale counter), `loss_count`
goes up by one exactly on a double loss, and the current stake ends reset
to the base stake. -/
theorem tally_increment (s : BotState) (direction : String) (t1 t2 : ℤ)
    (f1 f2 : Option (List CandleData)) :
    (evaluate_signal_result s direction t1 t2 f1 f2).state.win_count +
      (evaluate_signal_result s direction t1 t2 f1 f2).state.loss_count =
      s.win_count + s.loss_count + 1 ∧
    ((evaluate_signal_result s direction t1 t2 f1 f2).result = "WIN" ∨
        (evaluate_signal_result s direction t1 t2 f1 f2).result = "MTG WIN" →
      (evaluate_signal_result s direction t1 t2 f1 f2).state.win_count = s.win_count + 1 ∧
      (evaluate_signal_result s direction t1 t2 f1 f2).state.loss_count = s.loss_count) ∧
    ((evaluate_signal_result s direction t1 t2 f1 f2).result = "LOSS" →
      (evaluate_signal_result s direction t1 t2 f1 f2).state.loss_count = s.loss_count + 1 ∧
      (evaluate_signal_result s direction t1 t2 f1 f2).state.win_count = s.win_count) ∧
    (evaluate_signal_result s direction t1 t2 f1 f2).state.current_stake = s.base_stake := by
  by_cases h1 : check_trade_result direction t1 f1 = "WIN"
  · simp [evaluate_signal_result, h1]
    omega
  · by_cases h2 : check_trade_result direction t2 f2 = "WIN" <;>
      (simp [evaluate_signal_result, h1, h2]; omega)

/-- C4 witness: a double loss bumps only the loss counter and resets the
stake. -/
theorem tally_increment_witness :
    (evaluate_signal_result ⟨3, 2, 1, 1, 2, false⟩ "CALL" 0 60
      (some [⟨2, 3, 0, 2, 30⟩]) (some [⟨2, 3, 0, 2, 90⟩])).state.win_count +
      (evaluate_signal_result ⟨3, 2, 1, 1, 2, false⟩ "CALL" 0 60
        (some [⟨2, 3, 0, 2, 30⟩]) (some [⟨2, 3, 0, 2, 90⟩])).state.loss_count = 6 ∧
    (evaluate_signal_result ⟨3, 2, 1, 1, 2, false⟩ "CALL" 0 60
      (some [⟨2, 3, 0, 2, 30⟩]) (some [⟨2, 3, 0, 2, 90⟩])).state.loss_count = 3 ∧
    (evaluate_signal_result ⟨3, 2, 1, 1, 2, false⟩ "CALL" 0 60
      (some [⟨2, 3, 0, 2, 30⟩]) (some [⟨2, 3, 0, 2, 90⟩])).state.current_stake = 1 := by
  have h := tally_increment ⟨3, 2, 1, 1, 2, false⟩ "CALL" 0 60
    (some [⟨2, 3, 0, 2, 30⟩]) (some [⟨2, 3, 0, 2, 90⟩])
  refine ⟨h.1, (h.2.2.1 ?_).1, h.2.2.2⟩
  decide

/-- C5: every evaluation enters the INITIAL phase with the stake reset to
the configured base stake regardless of the incoming current stake, and on
an initial-phase loss the MARTINGALE phase is entered with stake
`base_stake * martingale_factor`, recomputed from the base stake rather
than compounded from the current stake. -/
theorem stake_policy (s : BotState) (direction : String) (t1 t2 : ℤ)
    (f1 f2 : Option (List CandleData)) :
    (evaluate_signal_result s direction t1 t2 f1 f2).phases.headD (Phase.INITIAL, 0) =
      (Phase.INITIAL, s.base_stake) ∧
    (check_trade_result direction t1 f1 ≠ "WIN" →
      (evaluate_signal_result s direction t1 t2 f1 f2).phases =
        [(Phase.INITIAL, s.base_stake),
          (Phase.MARTINGALE, s.base_stake * s.martingale_factor)]) := by
  by_cases h1 : check_trade_result direction t1 f1 = "WIN" <;>
    simp [evaluate_signal_result, h1]

/-- C5 witness: with base stake 5, factor 3 and a stale current stake of
17, the phases run at stakes 5 and 15. -/
theorem stake_policy_witness :
    (evaluate_signal_result ⟨0, 0, 5, 17, 3, false⟩ "CALL" 0 60
      (some [⟨2, 3, 0, 2, 30⟩]) none).phases =
      [(Phase.INITIAL, 5), (Phase.MARTINGALE, 15)] := by
  have h := (stake_policy ⟨0, 0, 5, 17, 3, false⟩ "CALL" 0 60
    (some [⟨2, 3, 0, 2, 30⟩]) none).2 (by decide)
  norm_num at h
  exact h

/-- C8 counterexample: in the fixed variant a fetch failure during the
initial phase makes `evaluate_result` return `"ERROR"`, not `"LOSS"`, so
the phase is not scored as a loss there as claimed. -/
theorem fetch_failure_cex :
    evaluate_result "CALL" none none = "ERROR" ∧
    evaluate_result "CALL" none none ≠ "LOSS" := by
  constructor
  · rfl
  · intro h
    simp [evaluate_result] at h

/-- C8 (amended): when bar data cannot be fetched, the martingale variant
scores the affected phase as a loss (`check_trade_result` returns LOSS, and
an evaluation with both fetches failing completes with result LOSS), and
the fixed variant scores a martingale-phase fetch failure as a loss but
aborts with ERROR on an initial-phase fetch failure; in every case the
evaluation terminates without retrying. -/
theorem fetch_failure_policy (s : BotState) (direction : String) (t1 t2 : ℤ)
    (c : CandleData) (f2 : Option (List CandleData)) :
    check_trade_result direction t1 none = "LOSS" ∧
    (evaluate_signal_result s direction t1 t2 none none).result = "LOSS" ∧
    evaluate_result direction none f2 = "ERROR" ∧
    (¬ check_candle_win direction c →
      evaluate_result direction (some [c]) none = "LOSS") := by
  refine ⟨rfl, ?_, rfl, ?_⟩
  · simp [evaluate_signal_result, check_trade_result]
  · intro h
    simp [evaluate_result, evaluate_result_mg, h]

/-- C8 witness: concrete fetch failures in each variant and phase. -/
theorem fetch_failure_policy_witness :
    check_trade_result "CALL" 0 none = "LOSS" ∧
    (evaluate_signal_result ⟨0, 0, 1, 1, 2, false⟩ "CALL" 0 60 none none).result = "LOSS" ∧
    evaluate_result "CALL" none none = "ERROR" ∧
    evaluate_result "CALL" (some [⟨2, 3, 0, 2, 30⟩]) none = "LOSS" := by
  have h := fetch_failure_policy ⟨0, 0, 1, 1, 2, false⟩ "CALL" 0 60 ⟨2, 3, 0, 2, 30⟩ none
  exact ⟨h.1, h.2.1, h.2.2.1, h.2.2.2 (by decide)⟩

/-- C10: a non-empty window of fewer than 4 bars whose mean high-low range
reaches the minimum-volatility threshold is not filtered out by
`analyze_single_pair`: it returns `some (pair, "NONE", 0, 0)` rather than
`none`, so the NONE-direction sentinel flows to the caller as if it were a
tradable signal. -/
theorem short_window_flows_through (pair : String) (cs : List CandleData) (thr : ℚ)
    (hne : cs ≠ []) (hlt : cs.length < 4) (hv : thr ≤ volatility cs) :
    analyze_single_pair pair (some cs) thr = some (pair, "NONE", 0, 0) := by
  simp only [analyze_single_pair]
  rw [if_neg (by simpa using hne)]
  simp only [score_pair, if_pos hlt]
  rw [if_neg (not_lt.mpr hv)]

/-- C10 witness: a single-bar window above the threshold yields the
NONE-direction tuple. -/
theorem short_window_flows_through_witness :
    analyze_single_pair "USDJPY_otc" (some [⟨1, 3, 0, 2, 0⟩]) 1 =
      some ("USDJPY_otc", "NONE", 0, 0) := by
  apply short_window_flows_through "USDJPY_otc" [⟨1, 3, 0, 2, 0⟩] 1 (by decide) (by decide)
  norm_num [volatility]
